import Mathlib

/-!
# Verification of the iRON webtool reactive data pipeline (src/app.py)

Shallow embedding of the server logic of `app.py`:
* the fetch stage `weather_data` (app.py:259-285),
* the plot-side parse stage `parsed_data` (app.py:287-316),
* the chart renderer `weather_plot` (app.py:318-382),
* the table renderer `variable_data_output` (app.py:384-453),
* the variable-string formatter `get_vars_str` (app.py:194-209),
* the feedback handler `submit_feedback_issue` (app.py:138-187).

Modelling conventions:
* JSON documents are the inductive `Json`; Python dictionaries are
  association lists of string keys (first matching key wins, as in a dict
  built from distinct keys).
* Timestamps are integers.  `pd.to_datetime` element parsing is modelled by
  `parseTimestamp`: an entry that parses is a `Json.num` holding the epoch
  value, an unparseable entry is any other `Json` constructor.  A `NaT`
  (missing-timestamp marker) is `none`.
* A pandas `DataFrame` keyed by `Time` is `DFrame κ`: a list of non-`Time`
  column names plus rows of (key, cells).  `pd.merge(..., on="Time",
  how="outer")` is `outerMerge`; it reproduces pandas semantics for frames
  whose `Time` keys are unique (the spec speaks of timestamp *sets*); the
  row order chosen (left keys first, then unmatched right keys) is
  irrelevant to every property proved here.
* Exceptions are `Except`/`Option` failure values; HTTP traffic is made
  explicit as data (`HttpRequest`, `FetchOutcome`, `PostOutcome`).
-/

/-- Parsed JSON documents, as returned by `response.json()`. -/
inductive Json where
  | null
  | str (s : String)
  | num (n : Int)
  | arr (elems : List Json)
  | obj (fields : List (String × Json))

namespace Json

/-- Python `key in data` on a dict. -/
def hasKey : Json → String → Bool
  | .obj fields, k => fields.any (fun f => f.1 == k)
  | _, _ => false

/-- Python `data[key]` / `data.get(key)` on a dict: first binding of the key. -/
def get? : Json → String → Option Json
  | .obj fields, k => (fields.find? (fun f => f.1 == k)).map Prod.snd
  | _, _ => none

/-- Python truthiness test `not data` (`None`, `0`, `""`, `[]`, `{}` are falsy). -/
def isFalsy : Json → Bool
  | .null => true
  | .str s => s == ""
  | .num n => n == 0
  | .arr l => l.isEmpty
  | .obj l => l.isEmpty

end Json

/-! ## get_vars_str (app.py:194-209) -/

/-- The dynamic shape of `input.vars()`: `None`, a tuple of strings, or a
single string. -/
inductive RawVars where
  | null
  | tuple (vs : List String)
  | str (s : String)
deriving DecidableEq

/-- Python `not raw_vars` for the three shapes `input.vars()` can take. -/
def RawVars.isFalsy : RawVars → Bool
  | .null => true
  | .tuple [] => true
  | .str "" => true
  | _ => false

/-- `get_vars_str` (app.py:194-209): falsy input collapses to the default
`"air_temp"`; a tuple is converted to a list and joined with commas in
order; a bare string is returned as is. -/
def get_vars_str (rawVars : RawVars) : String :=
  if rawVars.isFalsy then "air_temp"
  else
    match rawVars with
    | .tuple vs => String.intercalate "," vs
    | .str s => s
    | .null => "air_temp"

/-! ## weather_data (app.py:259-285) -/

/-- What the single `requests.get` call can produce: an HTTP response whose
body decoded as JSON, or a raised `requests.exceptions.RequestException`
(transport failure: DNS, connection reset, timeout, or JSON decode error). -/
inductive FetchOutcome where
  | resp (status : Nat) (reason : String) (body : Json)
  | exn (msg : String)

/-- One HTTP request as issued by the client library, with the timeout
argument that was passed (or `none` when no timeout was given). -/
structure HttpRequest where
  method : String
  url : String
  timeout : Option Nat
deriving DecidableEq

/-- The network requests one invocation of `weather_data` issues: none when
the URL is empty (app.py:263-265), otherwise exactly the single
`requests.get(request_url)` of app.py:268, which passes no timeout. -/
def weatherRequests (requestUrl : String) : List HttpRequest :=
  if requestUrl = "" then [] else [⟨"GET", requestUrl, none⟩]

/-- `"STATION" in data and isinstance(data["STATION"], list)` (app.py:277). -/
def stationShapeOk (body : Json) : Bool :=
  match body.get? "STATION" with
  | some (.arr _) => true
  | _ => false

/-- `weather_data` (app.py:259-285): empty URL yields an error dict without
any request; a non-200 status yields an `API Error` dict; a 200 body lacking
a list-typed `STATION` field yields an `Unexpected API response format`
dict; a transport exception yields an `Error fetching API data` dict;
otherwise the decoded body is returned unchanged. -/
def weather_data (requestUrl : String) (outcome : FetchOutcome) : Json :=
  if requestUrl = "" then .obj [("Error", .str "Invalid API URL.")]
  else
    match outcome with
    | .resp status reason body =>
      if status ≠ 200 then
        .obj [("Error", .str ("API Error: " ++ toString status ++ " - " ++ reason))]
      else if stationShapeOk body then body
      else .obj [("Error", .str "Unexpected API response format.")]
    | .exn msg => .obj [("Error", .str ("Error fetching API data: " ++ msg))]

/-! ## Timestamp parsing (app.py:305 and app.py:427-429) -/

/-- Element-level `pd.to_datetime` parsing: a parseable entry is modelled as
a `Json.num` epoch value; anything else fails to parse. -/
def parseTimestamp : Json → Option Int
  | .num n => some n
  | _ => none

/-- `pd.to_datetime(entries, errors="coerce")` (app.py:427-429): every
invalid entry is coerced to the missing-timestamp marker `none`. -/
def toDatetimeCoerce (entries : List Json) : List (Option Int) :=
  entries.map parseTimestamp

/-- `pd.to_datetime(entries)` with the default `errors="raise"`
(app.py:305): any invalid entry raises, making the whole parse fail. -/
def toDatetimeRaise : List Json → Option (List Int)
  | [] => some []
  | j :: js =>
    match parseTimestamp j, toDatetimeRaise js with
    | some t, some ts => some (t :: ts)
    | _, _ => none

/-- An observation cell: numeric values survive, `null`/non-numeric entries
become the missing marker (pandas `NaN`). -/
def obsValue : Json → Option Int
  | .num n => some n
  | _ => none

/-! ## DataFrames and the outer join on Time (app.py:440-444) -/

/-- A pandas `DataFrame` keyed by `Time`: the non-`Time` column names in
order, and rows of (Time key, cells aligned with `cols`). -/
structure DFrame (κ : Type) where
  cols : List String
  rows : List (κ × List (Option Int))
deriving DecidableEq

/-- First row with the given `Time` key. -/
def rowLookup {κ : Type} [DecidableEq κ] : List (κ × List (Option Int)) → κ → Option (List (Option Int))
  | [], _ => none
  | r :: rs, t => if r.1 = t then some r.2 else rowLookup rs t

/-- Index of a column name (length of the list when absent). -/
def colIdx : List String → String → Nat
  | [], _ => 0
  | c :: cs, v => if v = c then 0 else colIdx cs v + 1

/-- The `Time` keys of a frame, in row order. -/
def dfKeys {κ : Type} (m : DFrame κ) : List κ := m.rows.map Prod.fst

/-- Key set of a full outer join: all left keys, then the right keys not
present on the left. -/
def unionKeys {κ : Type} [DecidableEq κ] (ka kb : List κ) : List κ :=
  ka ++ kb.filter (fun t => decide (t ∉ ka))

/-- `pd.merge(m, v, on="Time", how="outer")` (app.py:444) for frames with
unique `Time` keys: the result's key set is the union of both key sets, and
a row missing on either side carries the missing marker in that side's
columns. -/
def outerMerge {κ : Type} [DecidableEq κ] (m v : DFrame κ) : DFrame κ :=
  { cols := m.cols ++ v.cols,
    rows := (unionKeys (dfKeys m) (dfKeys v)).map (fun t =>
      (t, ((rowLookup m.rows t).getD (List.replicate m.cols.length none))
          ++ ((rowLookup v.rows t).getD (List.replicate v.cols.length none)))) }

/-- The merge loop of app.py:440-444: the first frame seeds the accumulator
(`if df_master.empty`), every further frame is outer-joined onto it. -/
def mergeAllDF {κ : Type} [DecidableEq κ] : List (DFrame κ) → DFrame κ
  | [] => ⟨[], []⟩
  | f :: fs => fs.foldl outerMerge f

/-- Cell of the merged table at a `Time` key and a column name; `none` is
the missing marker (also used when the row or the column is absent). -/
def DFrame.cell {κ : Type} [DecidableEq κ] (m : DFrame κ) (t : κ) (v : String) : Option Int :=
  ((rowLookup m.rows t).getD []).getD (colIdx m.cols v) none

/-- One normalized per-variable time series (spec §3): a variable name and
its (timestamp, value) points. -/
structure TimeSeries where
  name : String
  points : List (Int × Int)
deriving DecidableEq

/-- First observation of a series at a timestamp. -/
def ptLookup : List (Int × Int) → Int → Option Int
  | [], _ => none
  | p :: ps, t => if p.1 = t then some p.2 else ptLookup ps t

/-- The two-column `df_var`-style frame a `TimeSeries` contributes to the
join (one `Time` column and one value column, app.py:425-432). -/
def tsFrame (s : TimeSeries) : DFrame Int :=
  ⟨[s.name], s.points.map (fun p => (p.1, [some p.2]))⟩

/-- The Merger: outer-join a list of time series on `Time`, as the loop of
app.py:440-444 does. -/
def mergeTS (l : List TimeSeries) : DFrame Int :=
  mergeAllDF (l.map tsFrame)

/-! ## parsed_data (app.py:287-316) and weather_plot (app.py:318-382) -/

/-- The DataFrame built by `parsed_data`: the strictly parsed `Time` column
plus one value column per requested variable found in OBSERVATIONS, in
request order. -/
structure PlotDF where
  times : List Int
  cols : List (String × List (Option Int))
deriving DecidableEq

/-- The column-assignment loop of app.py:311-314: a present `<var>_set_1`
array of the index length becomes a column, a present scalar broadcasts
over the index, a present array of another length raises, an absent key is
silently skipped. -/
def buildPlotCols (obs : Json) (n : Nat) : List String → Except Unit (List (String × List (Option Int)))
  | [] => .ok []
  | v :: vs =>
    match obs.get? (v ++ "_set_1") with
    | none => buildPlotCols obs n vs
    | some (.arr vals) =>
      if vals.length = n then
        (buildPlotCols obs n vs).map (fun rest => (v, vals.map obsValue) :: rest)
      else .error ()
    | some j =>
      (buildPlotCols obs n vs).map (fun rest => (v, List.replicate n (obsValue j)) :: rest)

/-- `parsed_data` (app.py:287-316).  `.error ()` is a raised exception
(strict `pd.to_datetime` or a mismatched column assignment — nothing in
`parsed_data` catches these), `.ok none` is the `return None` paths, and
`.ok (some df)` is the built DataFrame. -/
def parsed_data (data : Json) (selectedVars : List String) : Except Unit (Option PlotDF) :=
  if data.isFalsy || data.hasKey "Error" then .ok none
  else
    match (data.get? "STATION").getD (.arr [.obj []]) with
    | .arr [] => .ok none
    | .arr (st :: _) =>
      let obs := (st.get? "OBSERVATIONS").getD (.obj [])
      let dtEntries := match obs.get? "date_time" with
        | some (.arr es) => es
        | _ => []
      match toDatetimeRaise dtEntries with
      | none => .error ()
      | some times =>
        (buildPlotCols obs times.length selectedVars).map (fun cs => some ⟨times, cs⟩)
    | _ => .ok none

/-- The axis policy of `weather_plot` (app.py:336-359), chosen from the
df's non-`Time` columns: none selected, a single axis, or a dual axis on
the first two with the rest ignored. -/
inductive AxisChoice where
  | noVars
  | single (v : String)
  | dual (a b : String)
deriving DecidableEq

/-- Pure selection of the axis plan from the selected column list. -/
def axisChoice : List String → AxisChoice
  | [] => .noVars
  | [v] => .single v
  | a :: b :: _ => .dual a b

/-- The figure `weather_plot` renders, up to the drawing calls. -/
inductive PlotResult where
  | raised
  | noData
  | noVars
  | singleAxis (v : String)
  | dualAxis (a b : String)
deriving DecidableEq

/-- `weather_plot` (app.py:318-382): a raised `parsed_data` escapes the
renderer; `None` or an empty df gives the `No data available` figure;
otherwise the axis policy of app.py:336-359 is applied to the df's
non-`Time` columns. -/
def weather_plot (data : Json) (selectedVars : List String) : PlotResult :=
  match parsed_data data selectedVars with
  | .error () => .raised
  | .ok none => .noData
  | .ok (some df) =>
    if df.times.isEmpty then .noData
    else
      match axisChoice (df.cols.map Prod.fst) with
      | .noVars => .noVars
      | .single v => .singleAxis v
      | .dual a b => .dualAxis a b

/-! ## variable_data_output (app.py:384-453) -/

/-- Failure of the per-variable loop of app.py:410-444. -/
inductive TableErr where
  | missingVar (key : String)
  | emptyFrame
  | lenMismatch
deriving DecidableEq

/-- What `variable_data_output` hands to `render.DataGrid`: either a
single-column diagnostic grid or the merged master frame keyed by the
coerce-parsed `Time` column. -/
inductive TableResult where
  | errorGrid (msg : String)
  | grid (df : DFrame (Option Int))
deriving DecidableEq

/-- The loop of app.py:411-438: abort on the first requested variable whose
`<var>_set_1` key is absent; build `df_var` from the coerce-parsed
`date_time` and the observation array (equal lengths required by the
`pd.DataFrame` constructor, scalars broadcast); abort when `df_var` is
empty; collect the per-variable frames in order. -/
def buildFrames (obs : Json) : List String → Except TableErr (List (DFrame (Option Int)))
  | [] => .ok []
  | v :: vs =>
    match obs.get? (v ++ "_set_1") with
    | none => .error (.missingVar (v ++ "_set_1"))
    | some (.arr vals) =>
      let times := toDatetimeCoerce (match obs.get? "date_time" with
        | some (.arr es) => es
        | _ => [])
      if vals.length = times.length then
        if times.length = 0 then .error .emptyFrame
        else (buildFrames obs vs).map (fun fs => (⟨[v], times.zip (vals.map (fun j => [obsValue j]))⟩ : DFrame (Option Int)) :: fs)
      else .error .lenMismatch
    | some j =>
      let times := toDatetimeCoerce (match obs.get? "date_time" with
        | some (.arr es) => es
        | _ => [])
      if times.length = 0 then .error .emptyFrame
      else (buildFrames obs vs).map (fun fs => (⟨[v], times.map (fun t => (t, [obsValue j]))⟩ : DFrame (Option Int)) :: fs)

/-- `not station_data[0].get("OBSERVATIONS")` (app.py:400): OBSERVATIONS
must be present and truthy. -/
def obsCheck (st : Json) : Bool :=
  match st.get? "OBSERVATIONS" with
  | some o => !o.isFalsy
  | none => false

/-- `variable_data_output` (app.py:384-453): the `No data available`
diagnostic when the fetch result carries the `Error` sentinel; the
`Unexpected API response format` diagnostic when `STATION` is falsy, not a
list, or its first element lacks truthy OBSERVATIONS; the per-variable loop
of `buildFrames` with its three diagnostics; otherwise the master frame
merged by the outer join of app.py:440-444. -/
def variable_data_output (data : Json) (selectedVars : List String) : TableResult :=
  if data.isFalsy || data.hasKey "Error" then .errorGrid "No data available."
  else
    match (data.get? "STATION").getD (.arr [.obj []]) with
    | .arr (st :: _) =>
      if !(obsCheck st) then .errorGrid "Unexpected API response format."
      else
        match buildFrames ((st.get? "OBSERVATIONS").getD (.obj [])) selectedVars with
        | .error (.missingVar key) =>
          .errorGrid ("Variable \x27" ++ key ++ "\x27 not found in API response.")
        | .error .emptyFrame => .errorGrid "No valid data available."
        | .error .lenMismatch => .errorGrid "Error processing data: arrays must all be same length"
        | .ok frames => .grid (mergeAllDF frames)
    | _ => .errorGrid "Unexpected API response format."

/-- The well-formed single-station response shape of spec §6, wrapped
around a given OBSERVATIONS block. -/
def mkData (obs : Json) : Json :=
  .obj [("STATION", .arr [.obj [("OBSERVATIONS", obs)]])]

/-- An OBSERVATIONS block holding a `date_time` array and an aligned
`air_temp_set_1` array of numeric values. -/
def singleVarObs (dts : List Json) (vals : List Int) : Json :=
  .obj [("date_time", .arr dts), ("air_temp_set_1", .arr (vals.map Json.num))]

/-! ## submit_feedback_issue (app.py:138-187) -/

/-- What the single `requests.post` call can produce. -/
inductive PostOutcome where
  | resp (status : Nat) (body : String)
  | exn (msg : String)
deriving DecidableEq

/-- Terminal states of one feedback submission attempt (spec §4.6). -/
inductive FbState where
  | empty
  | succeeded
  | failedStatus (code : Nat) (body : String)
  | failedExn (msg : String)
deriving DecidableEq

/-- Observable side effects the handler performs, in order. -/
inductive FbEffect where
  | post (title body : String)
  | setStatus (s : String)
  | notify (s : String)
  | updateButton (disabled : Bool)
deriving DecidableEq

/-- Python `str.strip()`: drop whitespace from both ends. -/
def pyStrip (s : String) : String :=
  ⟨((s.data.dropWhile Char.isWhitespace).reverse.dropWhile Char.isWhitespace).reverse⟩

/-- `submit_feedback_issue` (app.py:138-187): stripped-empty feedback sets
the empty-feedback status and returns before the `try` block (app.py:147-154),
issuing no network call and no button update; otherwise exactly one POST is
issued (app.py:164), 201 yields success, any other status yields the error
status carrying code and body, a raised exception yields the generic error
status, and the `finally` block re-enables the submit button
(app.py:181-185) on each of those three paths. -/
def submit_feedback_issue (text : String) (outcome : PostOutcome) : FbState × List FbEffect :=
  let feedback := pyStrip text
  if feedback = "" then
    (.empty,
     [.setStatus "Feedback is empty. Please type something first.",
      .notify "Feedback is empty. Please type something first."])
  else
    match outcome with
    | .resp s body =>
      if s = 201 then
        (.succeeded,
         [.post "User Feedback from Shiny App" feedback,
          .setStatus "Thank you! Your feedback has been submitted.",
          .notify "Thank you! Your feedback has been submitted as a GitHub issue.",
          .updateButton false])
      else
        (.failedStatus s body,
         [.post "User Feedback from Shiny App" feedback,
          .setStatus ("Error creating issue: " ++ toString s ++ "\n" ++ body),
          .notify ("Error creating issue: " ++ toString s ++ "\n" ++ body),
          .updateButton false])
    | .exn msg =>
      (.failedExn msg,
       [.post "User Feedback from Shiny App" feedback,
        .setStatus ("Error: " ++ msg),
        .notify ("Error: " ++ msg),
        .updateButton false])

/-- Whether an effect is the issue-creation POST. -/
def FbEffect.isPost : FbEffect → Bool
  | .post _ _ => true
  | _ => false

/-- Number of issue-creation POSTs in an effect trace. -/
def postCount (effs : List FbEffect) : Nat :=
  (effs.filter FbEffect.isPost).length

/-! ## Theorems -/

/-- C6: the axis plan is chosen purely from the count of selected
variables: none selected plots nothing, one selected gives a single axis on
it, two or more give a dual axis on the first two with the rest ignored,
so selecting a third variable does not change the plan. -/
theorem c6_axis_policy :
    axisChoice [] = .noVars
    ∧ (∀ a, axisChoice [a] = .single a)
    ∧ (∀ a b rest, axisChoice (a :: b :: rest) = .dual a b)
    ∧ axisChoice ["a", "b"] = axisChoice ["a", "b", "c"] :=
  ⟨rfl, fun _ => rfl, fun _ _ _ => rfl, rfl⟩

/-- C9: a null or empty variable selection formats to exactly `air_temp`;
a non-empty list formats to the comma-separated join preserving order. -/
theorem c9_vars_default :
    get_vars_str .null = "air_temp"
    ∧ get_vars_str (.tuple []) = "air_temp"
    ∧ ∀ v vs, get_vars_str (.tuple (v :: vs)) = String.intercalate "," (v :: vs) :=
  ⟨rfl, rfl, fun _ _ => rfl⟩

/-- C2 as stated is false on the code: the single GET of app.py:268 carries
no timeout (so there is no "fixed timeout on that request"), a 201 response
— which is 2xx and hence not a failure under the claim — is classified as
an API error because the code tests `status_code != 200`, and an invocation
with an empty URL issues zero GET requests rather than exactly one. -/
theorem c2_counterexample :
    weatherRequests "u" = [⟨"GET", "u", none⟩]
    ∧ weather_data "u" (.resp 201 "Created" .null)
      = .obj [("Error", .str "API Error: 201 - Created")]
    ∧ weatherRequests "" = [] :=
  ⟨rfl, rfl, rfl⟩

/-- C2 amended: with a non-empty URL, `weather_data` issues exactly one GET
and that request carries no timeout; with an empty URL it issues none; any
non-200 status (2xx included) is classified as an `API Error` value; a
transport exception is classified as an `Error fetching API data` value;
there is never more than the single request, so no internal retry. -/
theorem c2_amended (u reason msg : String) (s : Nat) (body : Json)
    (hu : u ≠ "") (hs : s ≠ 200) :
    weatherRequests u = [⟨"GET", u, none⟩]
    ∧ weatherRequests "" = []
    ∧ weather_data u (.resp s reason body)
        = .obj [("Error", .str ("API Error: " ++ toString s ++ " - " ++ reason))]
    ∧ weather_data u (.exn msg)
        = .obj [("Error", .str ("Error fetching API data: " ++ msg))] := by
  refine ⟨?_, rfl, ?_, ?_⟩
  · simp [weatherRequests, hu]
  · simp [weather_data, hu, hs]
  · simp [weather_data, hu]

/-- Witness for `c2_amended` at a concrete URL and a concrete 404. -/
theorem c2_amended_witness :
    ("https://api.example" : String) ≠ ""
    ∧ (404 : Nat) ≠ 200
    ∧ (weatherRequests "https://api.example" = [⟨"GET", "https://api.example", none⟩]
      ∧ weatherRequests "" = []
      ∧ weather_data "https://api.example" (.resp 404 "Not Found" .null)
          = .obj [("Error", .str ("API Error: " ++ toString (404 : Nat) ++ " - " ++ "Not Found"))]
      ∧ weather_data "https://api.example" (.exn "timed out")
          = .obj [("Error", .str ("Error fetching API data: " ++ "timed out"))]) :=
  ⟨by decide, by decide, c2_amended _ _ _ _ .null (by decide) (by decide)⟩

/-- C10: a 200 response whose JSON body carries a top-level `Error` key —
even alongside a valid list-typed `STATION` field — passes the fetch stage
unchanged, yet both renderers probe for the `Error` sentinel key and show
the no-data diagnostic instead of the data. -/
theorem c10_error_sentinel (e st : Json) (rest : List (String × Json))
    (vars : List String) (reason : String) :
    weather_data "u" (.resp 200 reason (.obj (("Error", e) :: ("STATION", .arr [st]) :: rest)))
      = .obj (("Error", e) :: ("STATION", .arr [st]) :: rest)
    ∧ variable_data_output (.obj (("Error", e) :: ("STATION", .arr [st]) :: rest)) vars
      = .errorGrid "No data available."
    ∧ weather_plot (.obj (("Error", e) :: ("STATION", .arr [st]) :: rest)) vars
      = .noData :=
  ⟨rfl, rfl, rfl⟩

/-- C7: stripped-empty feedback reaches the Empty terminal state with the
empty-feedback status and zero POSTs; non-empty feedback issues exactly one
POST, a 201 response reaches Succeeded, and any other status reaches the
Failed state carrying the code and body. -/
theorem c7_submit_contract (text : String) (outcome : PostOutcome) :
    (pyStrip text = "" →
      (submit_feedback_issue text outcome).1 = .empty
      ∧ postCount (submit_feedback_issue text outcome).2 = 0
      ∧ FbEffect.setStatus "Feedback is empty. Please type something first."
          ∈ (submit_feedback_issue text outcome).2)
    ∧ (pyStrip text ≠ "" →
      postCount (submit_feedback_issue text outcome).2 = 1
      ∧ (∀ b, outcome = .resp 201 b → (submit_feedback_issue text outcome).1 = .succeeded)
      ∧ (∀ s b, outcome = .resp s b → s ≠ 201 →
          (submit_feedback_issue text outcome).1 = .failedStatus s b)) := by
  constructor
  · intro h
    simp [submit_feedback_issue, h, postCount, FbEffect.isPost]
  · intro h
    refine ⟨?_, ?_, ?_⟩
    · cases outcome with
      | resp s b =>
        by_cases h201 : s = 201 <;>
          simp [submit_feedback_issue, h, h201, postCount, FbEffect.isPost]
      | exn m => simp [submit_feedback_issue, h, postCount, FbEffect.isPost]
    · rintro b rfl
      simp [submit_feedback_issue, h]
    · rintro s b rfl hs
      simp [submit_feedback_issue, h, hs]

/-- Witness for `c7_submit_contract`: a concrete non-empty submission with
a simulated 201 response. -/
theorem c7_submit_contract_witness :
    pyStrip "great tool" ≠ ""
    ∧ postCount (submit_feedback_issue "great tool" (.resp 201 "created")).2 = 1
    ∧ (submit_feedback_issue "great tool" (.resp 201 "created")).1 = .succeeded := by
  have h := (c7_submit_contract "great tool" (.resp 201 "created")).2 (by decide)
  exact ⟨by decide, h.1, h.2.1 "created" rfl⟩

/-- C8 as stated is false on the code: the handler never issues a disable
action for the submit control (no effect trace contains one, in particular
not a successful non-empty submission), and the stripped-empty path returns
before the `try`/`finally` block, so the Empty terminal state performs no
button update at all — the claimed "re-enabled on reaching any terminal
state (Empty, ...)" does not happen on Empty. -/
theorem c8_counterexample :
    FbEffect.updateButton true ∉ (submit_feedback_issue "great tool" (.resp 201 "created")).2
    ∧ FbEffect.updateButton true ∉ (submit_feedback_issue "   " (.resp 201 "created")).2
    ∧ FbEffect.updateButton false ∉ (submit_feedback_issue "   " (.resp 201 "created")).2 :=
  ⟨by decide, by decide, by decide⟩

/-- C8 amended: the handler itself never disables the submit control; on
every non-empty submission it re-enables the control unconditionally via
the `finally` block — on Succeeded, on Failed with any status, and on a
raised exception alike — while the Empty path issues no button update. -/
theorem c8_amended (text : String) (outcome : PostOutcome) :
    FbEffect.updateButton true ∉ (submit_feedback_issue text outcome).2
    ∧ (pyStrip text ≠ "" →
        FbEffect.updateButton false ∈ (submit_feedback_issue text outcome).2)
    ∧ (pyStrip text = "" →
        FbEffect.updateButton false ∉ (submit_feedback_issue text outcome).2) := by
  by_cases h : pyStrip text = ""
  · exact ⟨by simp [submit_feedback_issue, h],
      fun hne => absurd h hne,
      fun _ => by simp [submit_feedback_issue, h]⟩
  · cases outcome with
    | resp s b =>
      by_cases h201 : s = 201
      · subst h201
        exact ⟨by simp [submit_feedback_issue, h],
          fun _ => by simp [submit_feedback_issue, h],
          fun he => absurd he h⟩
      · exact ⟨by simp [submit_feedback_issue, h, h201],
          fun _ => by simp [submit_feedback_issue, h, h201],
          fun he => absurd he h⟩
    | exn m =>
      exact ⟨by simp [submit_feedback_issue, h],
        fun _ => by simp [submit_feedback_issue, h],
        fun he => absurd he h⟩

/-- Witness for `c8_amended`: even when the POST raises, the trace holds
the re-enable action and no disable action. -/
theorem c8_amended_witness :
    pyStrip "great tool" ≠ ""
    ∧ FbEffect.updateButton true ∉ (submit_feedback_issue "great tool" (.exn "boom")).2
    ∧ FbEffect.updateButton false ∈ (submit_feedback_issue "great tool" (.exn "boom")).2 := by
  have h := c8_amended "great tool" (.exn "boom")
  exact ⟨by decide, h.1, h.2.1 (by decide)⟩

/-! ### Outer-join helper lemmas -/

theorem rowLookup_map_key {κ : Type} [DecidableEq κ] (l : List κ)
    (f : κ → List (Option Int)) (x : κ) :
    rowLookup (l.map (fun t => (t, f t))) x = if x ∈ l then some (f x) else none := by
  induction l with
  | nil => simp [rowLookup]
  | cons a l ih =>
    simp only [List.map_cons, rowLookup, List.mem_cons]
    by_cases h : a = x
    · subst h; simp
    · rw [if_neg h, ih]
      by_cases hx : x ∈ l
      · simp [hx]
      · simp [hx, Ne.symm h]

theorem ptLookup_eq_none {pts : List (Int × Int)} {t : Int}
    (h : t ∉ pts.map Prod.fst) : ptLookup pts t = none := by
  induction pts with
  | nil => rfl
  | cons p ps ih =>
    simp only [List.map_cons, List.mem_cons] at h
    push_neg at h
    simp only [ptLookup, if_neg (Ne.symm h.1)]
    exact ih h.2

theorem rowLookup_points (pts : List (Int × Int)) (t : Int) :
    rowLookup (pts.map (fun p => (p.1, [some p.2]))) t
      = (ptLookup pts t).map (fun z => [some z]) := by
  induction pts with
  | nil => rfl
  | cons p ps ih =>
    simp only [List.map_cons, rowLookup, ptLookup]
    by_cases h : p.1 = t
    · simp [h]
    · simp [h, ih]

theorem mem_unionKeys {κ : Type} [DecidableEq κ] (ka kb : List κ) (x : κ) :
    x ∈ unionKeys ka kb ↔ x ∈ ka ∨ x ∈ kb := by
  simp only [unionKeys, List.mem_append, List.mem_filter, decide_eq_true_eq]
  tauto

theorem toFinset_unionKeys {κ : Type} [DecidableEq κ] (ka kb : List κ) :
    (unionKeys ka kb).toFinset = ka.toFinset ∪ kb.toFinset := by
  ext x
  simp [mem_unionKeys]

theorem nodup_unionKeys {κ : Type} [DecidableEq κ] {ka kb : List κ}
    (ha : ka.Nodup) (hb : kb.Nodup) : (unionKeys ka kb).Nodup := by
  refine ha.append (hb.filter _) ?_
  intro a haka hafil
  simp only [List.mem_filter, decide_eq_true_eq] at hafil
  exact hafil.2 haka

theorem mergeTS_pair (A B : TimeSeries) :
    mergeTS [A, B] = outerMerge (tsFrame A) (tsFrame B) := rfl

theorem tsFrame_keys (S : TimeSeries) :
    dfKeys (tsFrame S) = S.points.map Prod.fst := by
  simp [dfKeys, tsFrame, List.map_map, Function.comp]

theorem map_fst_pairs {κ β : Type} (l : List κ) (f : κ → β) :
    (l.map (fun t => (t, f t))).map Prod.fst = l := by
  induction l with
  | nil => rfl
  | cons a l ih => simp [ih]

theorem dfKeys_outerMerge {κ : Type} [DecidableEq κ] (m v : DFrame κ) :
    dfKeys (outerMerge m v) = unionKeys (dfKeys m) (dfKeys v) :=
  map_fst_pairs _ _

theorem keys_mergeTS2 (A B : TimeSeries) :
    dfKeys (mergeTS [A, B])
      = unionKeys (A.points.map Prod.fst) (B.points.map Prod.fst) := by
  rw [mergeTS_pair, dfKeys_outerMerge, tsFrame_keys, tsFrame_keys]

theorem cols_mergeTS2 (A B : TimeSeries) :
    (mergeTS [A, B]).cols = [A.name, B.name] := rfl

theorem rows_mergeTS2 (A B : TimeSeries) :
    (mergeTS [A, B]).rows
      = (unionKeys (A.points.map Prod.fst) (B.points.map Prod.fst)).map
          (fun s =>
            (s, ((ptLookup A.points s).map (fun z => [some z])).getD [none]
              ++ ((ptLookup B.points s).map (fun z => [some z])).getD [none])) := by
  rw [mergeTS_pair]
  show (unionKeys (dfKeys (tsFrame A)) (dfKeys (tsFrame B))).map _ = _
  rw [tsFrame_keys, tsFrame_keys]
  refine List.map_congr_left ?_
  intro s _
  have ra : rowLookup (tsFrame A).rows s
      = (ptLookup A.points s).map (fun z => [some z]) := rowLookup_points A.points s
  have rb : rowLookup (tsFrame B).rows s
      = (ptLookup B.points s).map (fun z => [some z]) := rowLookup_points B.points s
  rw [ra, rb]
  rfl

theorem cell_mergeTS2 (A B : TimeSeries) (t : Int) (v : String) :
    (mergeTS [A, B]).cell t v =
      if v = A.name then ptLookup A.points t
      else if v = B.name then ptLookup B.points t
      else none := by
  have hidx : colIdx (mergeTS [A, B]).cols v
      = if v = A.name then 0 else if v = B.name then 1 else 2 := by
    rw [cols_mergeTS2]
    simp only [colIdx]
    split_ifs <;> rfl
  by_cases ht : t ∈ unionKeys (A.points.map Prod.fst) (B.points.map Prod.fst)
  · have hrow : rowLookup (mergeTS [A, B]).rows t
        = some (((ptLookup A.points t).map (fun z => [some z])).getD [none]
            ++ ((ptLookup B.points t).map (fun z => [some z])).getD [none]) := by
      rw [rows_mergeTS2, rowLookup_map_key, if_pos ht]
    simp only [DFrame.cell, hrow, hidx, Option.getD_some]
    by_cases h1 : v = A.name
    · subst h1
      simp only [if_pos rfl]
      cases ptLookup A.points t <;> cases ptLookup B.points t <;>
        simp [List.getD_cons_zero]
    · by_cases h2 : v = B.name
      · subst h2
        cases ptLookup A.points t <;> cases ptLookup B.points t <;>
          simp [h1, List.getD_cons_succ, List.getD_cons_zero]
      · simp only [if_neg h1, if_neg h2]
        cases ptLookup A.points t <;> cases ptLookup B.points t <;>
          simp [List.getD_cons_succ, List.getD_nil]
  · have hrow : rowLookup (mergeTS [A, B]).rows t = none := by
      rw [rows_mergeTS2, rowLookup_map_key, if_neg ht]
    rw [mem_unionKeys] at ht
    push_neg at ht
    simp only [DFrame.cell, hrow, hidx, Option.getD_none, List.getD_nil]
    rw [ptLookup_eq_none ht.1, ptLookup_eq_none ht.2]
    split_ifs <;> rfl

/-- C4: merging two time series in either order via the outer join on
`Time` yields tables with identical row (timestamp) sets and identical
values at every (Time, variable) cell, differing at most in column order. -/
theorem c4_join_comm (A B : TimeSeries) (hname : A.name ≠ B.name) :
    (dfKeys (mergeTS [A, B])).toFinset = (dfKeys (mergeTS [B, A])).toFinset
    ∧ (∀ t v, (mergeTS [A, B]).cell t v = (mergeTS [B, A]).cell t v)
    ∧ List.Perm (mergeTS [A, B]).cols (mergeTS [B, A]).cols := by
  refine ⟨?_, ?_, ?_⟩
  · rw [keys_mergeTS2, keys_mergeTS2, toFinset_unionKeys, toFinset_unionKeys,
      Finset.union_comm]
  · intro t v
    rw [cell_mergeTS2, cell_mergeTS2]
    by_cases h1 : v = A.name <;> by_cases h2 : v = B.name
    · exact absurd (h1.symm.trans h2) hname
    · subst h1
      simp [hname]
    · subst h2
      simp [hname.symm]
    · simp [h1, h2]
  · rw [cols_mergeTS2, cols_mergeTS2]
    exact List.Perm.swap _ _ _

/-- Witness for `c4_join_comm` on two concrete overlapping series. -/
theorem c4_join_comm_witness :
    (TimeSeries.mk "air_temp" [(1, 5), (2, 6)]).name
        ≠ (TimeSeries.mk "soil_moisture" [(2, 7), (3, 8)]).name
    ∧ ((dfKeys (mergeTS [⟨"air_temp", [(1, 5), (2, 6)]⟩,
                          ⟨"soil_moisture", [(2, 7), (3, 8)]⟩])).toFinset
        = (dfKeys (mergeTS [⟨"soil_moisture", [(2, 7), (3, 8)]⟩,
                            ⟨"air_temp", [(1, 5), (2, 6)]⟩])).toFinset
      ∧ (∀ t v,
          (mergeTS [⟨"air_temp", [(1, 5), (2, 6)]⟩,
                    ⟨"soil_moisture", [(2, 7), (3, 8)]⟩]).cell t v
            = (mergeTS [⟨"soil_moisture", [(2, 7), (3, 8)]⟩,
                        ⟨"air_temp", [(1, 5), (2, 6)]⟩]).cell t v)
      ∧ List.Perm
          (mergeTS [⟨"air_temp", [(1, 5), (2, 6)]⟩,
                    ⟨"soil_moisture", [(2, 7), (3, 8)]⟩]).cols
          (mergeTS [⟨"soil_moisture", [(2, 7), (3, 8)]⟩,
                    ⟨"air_temp", [(1, 5), (2, 6)]⟩]).cols) :=
  ⟨by decide, c4_join_comm _ _ (by decide)⟩

/-- C5: for series with duplicate-free timestamp lists, the outer join on
`Time` has exactly as many rows as the union of the two timestamp sets, and
a cell whose variable had no observation at that row's timestamp holds the
missing marker. -/
theorem c5_union_row_count (A B : TimeSeries) (hname : A.name ≠ B.name)
    (hA : (A.points.map Prod.fst).Nodup) (hB : (B.points.map Prod.fst).Nodup) :
    (mergeTS [A, B]).rows.length
      = ((A.points.map Prod.fst).toFinset ∪ (B.points.map Prod.fst).toFinset).card
    ∧ ∀ t, t ∈ dfKeys (mergeTS [A, B]) →
        (t ∉ A.points.map Prod.fst → (mergeTS [A, B]).cell t A.name = none)
        ∧ (t ∉ B.points.map Prod.fst → (mergeTS [A, B]).cell t B.name = none) := by
  constructor
  · have h1 : (mergeTS [A, B]).rows.length
        = (unionKeys (A.points.map Prod.fst) (B.points.map Prod.fst)).length := by
      have h2 := congrArg List.length (keys_mergeTS2 A B)
      simpa [dfKeys] using h2
    rw [h1, ← toFinset_unionKeys, List.toFinset_card_of_nodup (nodup_unionKeys hA hB)]
  · intro t _
    constructor
    · intro hta
      rw [cell_mergeTS2, if_pos rfl, ptLookup_eq_none hta]
    · intro htb
      rw [cell_mergeTS2, if_neg (Ne.symm hname), if_pos rfl, ptLookup_eq_none htb]

/-- Witness for `c5_union_row_count` on two concrete series sharing one
timestamp: 2 + 2 points with one overlap give 3 rows. -/
theorem c5_union_row_count_witness :
    (TimeSeries.mk "air_temp" [(1, 5), (2, 6)]).name
        ≠ (TimeSeries.mk "soil_moisture" [(2, 7), (3, 8)]).name
    ∧ ((TimeSeries.mk "air_temp" [(1, 5), (2, 6)]).points.map Prod.fst).Nodup
    ∧ ((TimeSeries.mk "soil_moisture" [(2, 7), (3, 8)]).points.map Prod.fst).Nodup
    ∧ ((mergeTS [⟨"air_temp", [(1, 5), (2, 6)]⟩,
                 ⟨"soil_moisture", [(2, 7), (3, 8)]⟩]).rows.length
        = (([1, 2] : List Int).toFinset ∪ ([2, 3] : List Int).toFinset).card
      ∧ ∀ t, t ∈ dfKeys (mergeTS [⟨"air_temp", [(1, 5), (2, 6)]⟩,
                                  ⟨"soil_moisture", [(2, 7), (3, 8)]⟩]) →
          (t ∉ ([1, 2] : List Int)
            → (mergeTS [⟨"air_temp", [(1, 5), (2, 6)]⟩,
                        ⟨"soil_moisture", [(2, 7), (3, 8)]⟩]).cell t "air_temp" = none)
          ∧ (t ∉ ([2, 3] : List Int)
            → (mergeTS [⟨"air_temp", [(1, 5), (2, 6)]⟩,
                        ⟨"soil_moisture", [(2, 7), (3, 8)]⟩]).cell t "soil_moisture" = none)) :=
  ⟨by decide, by decide, by decide,
    c5_union_row_count _ _ (by decide) (by decide) (by decide)⟩

/-! ### Pipeline reduction lemmas -/

theorem parsed_data_mkData (obs : Json) (vars : List String) :
    parsed_data (mkData obs) vars
      = match toDatetimeRaise (match obs.get? "date_time" with
          | some (.arr es) => es
          | _ => []) with
        | none => .error ()
        | some times =>
          (buildPlotCols obs times.length vars).map (fun cs => some ⟨times, cs⟩) := rfl

theorem vdo_mkData_aux (obs : Json) (vars : List String) :
    variable_data_output (mkData obs) vars
      = if !(!obs.isFalsy) then TableResult.errorGrid "Unexpected API response format."
        else
          match buildFrames obs vars with
          | .error (.missingVar key) =>
            .errorGrid ("Variable \x27" ++ key ++ "\x27 not found in API response.")
          | .error .emptyFrame => .errorGrid "No valid data available."
          | .error .lenMismatch =>
            .errorGrid "Error processing data: arrays must all be same length"
          | .ok frames => .grid (mergeAllDF frames) := rfl

theorem vdo_mkData (obs : Json) (vars : List String) (hf : obs.isFalsy = false) :
    variable_data_output (mkData obs) vars
      = match buildFrames obs vars with
        | .error (.missingVar key) =>
          .errorGrid ("Variable \x27" ++ key ++ "\x27 not found in API response.")
        | .error .emptyFrame => .errorGrid "No valid data available."
        | .error .lenMismatch =>
          .errorGrid "Error processing data: arrays must all be same length"
        | .ok frames => .grid (mergeAllDF frames) := by
  rw [vdo_mkData_aux, hf]
  rfl

theorem vdo_mkData_falsy (obs : Json) (vars : List String) (hf : obs.isFalsy = true) :
    variable_data_output (mkData obs) vars
      = .errorGrid "Unexpected API response format." := by
  rw [vdo_mkData_aux, hf]
  rfl

theorem buildFrames_missing (obs : Json) (vars : List String)
    (h : ∃ v ∈ vars, obs.get? (v ++ "_set_1") = none) :
    ∃ e, buildFrames obs vars = .error e := by
  revert h
  induction vars with
  | nil =>
    rintro ⟨v, hv, -⟩
    cases hv
  | cons w ws ih =>
    rintro ⟨v, hv, hnone⟩
    cases hw : obs.get? (w ++ "_set_1") with
    | none => exact ⟨.missingVar (w ++ "_set_1"), by simp [buildFrames, hw]⟩
    | some j =>
      have hv' : v ∈ ws := by
        rcases List.mem_cons.mp hv with rfl | h'
        · rw [hw] at hnone
          cases hnone
        · exact h'
      obtain ⟨e, he⟩ := ih ⟨v, hv', hnone⟩
      cases j <;> simp only [buildFrames, hw] <;> split_ifs <;>
        first
        | exact ⟨.emptyFrame, rfl⟩
        | exact ⟨.lenMismatch, rfl⟩
        | exact ⟨e, by rw [he]; rfl⟩

theorem buildPlotCols_filter (obs : Json) (n : Nat) (vars : List String) :
    buildPlotCols obs n vars
      = buildPlotCols obs n (vars.filter (fun v => (obs.get? (v ++ "_set_1")).isSome)) := by
  induction vars with
  | nil => rfl
  | cons w ws ih =>
    cases hw : obs.get? (w ++ "_set_1") with
    | none =>
      have hstep : buildPlotCols obs n (w :: ws) = buildPlotCols obs n ws := by
        simp only [buildPlotCols, hw]
      rw [hstep, ih]
      congr 1
      simp [List.filter_cons, hw]
    | some j =>
      have hp : (obs.get? (w ++ "_set_1")).isSome = true := by rw [hw]; rfl
      have hfil : (w :: ws).filter (fun v => (obs.get? (v ++ "_set_1")).isSome)
          = w :: ws.filter (fun v => (obs.get? (v ++ "_set_1")).isSome) := by
        simp [List.filter_cons, hp]
      rw [hfil]
      simp only [buildPlotCols, hw]
      cases j <;> simp [ih]

theorem weather_plot_filter (obs : Json) (vars : List String) :
    weather_plot (mkData obs) vars
      = weather_plot (mkData obs)
          (vars.filter (fun v => (obs.get? (v ++ "_set_1")).isSome)) := by
  unfold weather_plot
  rw [parsed_data_mkData, parsed_data_mkData]
  simp only [← buildPlotCols_filter]

theorem toDatetimeRaise_eq_none {dts : List Json} {j : Json}
    (hj : j ∈ dts) (hbad : parseTimestamp j = none) :
    toDatetimeRaise dts = none := by
  revert hj
  induction dts with
  | nil =>
    intro hj
    cases hj
  | cons a l ih =>
    intro hj
    rcases List.mem_cons.mp hj with rfl | h'
    · simp [toDatetimeRaise, hbad]
    · simp only [toDatetimeRaise]
      rw [ih h']
      cases parseTimestamp a <;> rfl

/-- C1 as stated is false on the code: with `air_temp` present and
`soil_moisture` absent from OBSERVATIONS, the table render aborts with the
variable-not-found diagnostic, but the plot render is not a diagnostic — it
silently drops the missing variable and renders a single-axis plot of the
remaining present variable. -/
theorem c1_counterexample :
    variable_data_output
        (mkData (.obj [("date_time", .arr [.num 0, .num 1]),
                       ("air_temp_set_1", .arr [.num 10, .num 11])]))
        ["air_temp", "soil_moisture"]
      = .errorGrid "Variable \x27soil_moisture_set_1\x27 not found in API response."
    ∧ weather_plot
        (mkData (.obj [("date_time", .arr [.num 0, .num 1]),
                       ("air_temp_set_1", .arr [.num 10, .num 11])]))
        ["air_temp", "soil_moisture"]
      = .singleAxis "air_temp" :=
  ⟨by decide, by decide⟩

/-- C1 amended: when a requested variable's `<var>_set_1` key is absent
from a well-formed response, the table render is all-or-nothing — it
produces a diagnostic grid and renders none of the present variables (the
variable-not-found diagnostic when the first requested variable is the
missing one) — while the plot render does not abort: it behaves exactly as
if the selection were filtered down to the variables present in
OBSERVATIONS. -/
theorem c1_amended (obs : Json) (vars : List String) :
    ((∃ v ∈ vars, obs.get? (v ++ "_set_1") = none) →
      ∃ msg, variable_data_output (mkData obs) vars = .errorGrid msg)
    ∧ (∀ v vs, vars = v :: vs → obs.isFalsy = false →
        obs.get? (v ++ "_set_1") = none →
        variable_data_output (mkData obs) vars
          = .errorGrid ("Variable \x27" ++ (v ++ "_set_1")
              ++ "\x27 not found in API response."))
    ∧ weather_plot (mkData obs) vars
      = weather_plot (mkData obs)
          (vars.filter (fun v => (obs.get? (v ++ "_set_1")).isSome)) := by
  refine ⟨?_, ?_, weather_plot_filter obs vars⟩
  · intro hmiss
    cases hf : obs.isFalsy with
    | true => exact ⟨_, vdo_mkData_falsy obs vars hf⟩
    | false =>
      obtain ⟨e, he⟩ := buildFrames_missing obs vars hmiss
      cases e with
      | missingVar key =>
        exact ⟨"Variable \x27" ++ key ++ "\x27 not found in API response.",
          by rw [vdo_mkData obs vars hf, he]⟩
      | emptyFrame =>
        exact ⟨"No valid data available.", by rw [vdo_mkData obs vars hf, he]⟩
      | lenMismatch =>
        exact ⟨"Error processing data: arrays must all be same length",
          by rw [vdo_mkData obs vars hf, he]⟩
  · rintro v vs rfl hf hnone
    have hb : buildFrames obs (v :: vs) = .error (.missingVar (v ++ "_set_1")) := by
      simp [buildFrames, hnone]
    rw [vdo_mkData obs (v :: vs) hf, hb]

/-- Witness for `c1_amended`: `soil_moisture` requested first and absent,
`air_temp` present; the table shows the diagnostic and the plot equals the
plot of the filtered selection. -/
theorem c1_amended_witness :
    (Json.obj [("date_time", .arr [.num 0, .num 1]),
               ("air_temp_set_1", .arr [.num 10, .num 11])]).isFalsy = false
    ∧ (Json.obj [("date_time", .arr [.num 0, .num 1]),
                 ("air_temp_set_1", .arr [.num 10, .num 11])]).get?
        ("soil_moisture" ++ "_set_1") = none
    ∧ variable_data_output
        (mkData (.obj [("date_time", .arr [.num 0, .num 1]),
                       ("air_temp_set_1", .arr [.num 10, .num 11])]))
        ["soil_moisture", "air_temp"]
      = .errorGrid ("Variable \x27" ++ ("soil_moisture" ++ "_set_1")
          ++ "\x27 not found in API response.")
    ∧ weather_plot
        (mkData (.obj [("date_time", .arr [.num 0, .num 1]),
                       ("air_temp_set_1", .arr [.num 10, .num 11])]))
        ["soil_moisture", "air_temp"]
      = weather_plot
          (mkData (.obj [("date_time", .arr [.num 0, .num 1]),
                         ("air_temp_set_1", .arr [.num 10, .num 11])]))
          (["soil_moisture", "air_temp"].filter
            (fun v => ((Json.obj [("date_time", .arr [.num 0, .num 1]),
                ("air_temp_set_1", .arr [.num 10, .num 11])]).get?
              (v ++ "_set_1")).isSome)) :=
  ⟨rfl, rfl,
    (c1_amended _ _).2.1 "soil_moisture" ["air_temp"] rfl rfl rfl,
    (c1_amended _ _).2.2⟩

/-- C3 as stated is false on the code: with an unparseable `date_time`
entry, the table computation coerces it to the missing-timestamp marker and
succeeds, but the plot computation calls `pd.to_datetime` without
`errors="coerce"` and raises instead of coercing. -/
theorem c3_counterexample :
    weather_plot (mkData (singleVarObs [.str "not-a-timestamp"] [5])) ["air_temp"]
      = .raised
    ∧ variable_data_output (mkData (singleVarObs [.str "not-a-timestamp"] [5]))
        ["air_temp"]
      = .grid ⟨["air_temp"], [(none, [some 5])]⟩ :=
  ⟨by decide, by decide⟩

/-- C3 amended: in the table computation every invalid `date_time` entry is
coerced to the missing-timestamp marker and nothing is raised — the grid is
built with `none` in exactly the invalid positions — while the plot
computation parses strictly and raises as soon as any entry is invalid. -/
theorem c3_amended (dts : List Json) (vals : List Int)
    (hlen : vals.length = dts.length) (hne : dts ≠ []) :
    variable_data_output (mkData (singleVarObs dts vals)) ["air_temp"]
      = .grid ⟨["air_temp"],
          (toDatetimeCoerce dts).zip (vals.map (fun z => [some z]))⟩
    ∧ (∀ j ∈ dts, parseTimestamp j = none →
        weather_plot (mkData (singleVarObs dts vals)) ["air_temp"] = .raised) := by
  have hget : (singleVarObs dts vals).get? ("air_temp" ++ "_set_1")
      = some (.arr (vals.map Json.num)) := rfl
  have hdt : (singleVarObs dts vals).get? "date_time" = some (.arr dts) := rfl
  constructor
  · have hc1 : (vals.map Json.num).length = (toDatetimeCoerce dts).length := by
      simp [toDatetimeCoerce, hlen]
    have hc2 : ¬(toDatetimeCoerce dts).length = 0 := by
      simp [toDatetimeCoerce, List.length_eq_zero, hne]
    have hbuild : buildFrames (singleVarObs dts vals) ["air_temp"]
        = .ok [⟨["air_temp"],
            (toDatetimeCoerce dts).zip (vals.map (fun z => [some z]))⟩] := by
      have hmap : List.map ((fun j => [obsValue j]) ∘ Json.num) vals
          = List.map (fun z => [some z]) vals := by
        apply List.map_congr_left
        intro z _
        rfl
      simp only [buildFrames, hget, hdt]
      rw [if_pos hc1, if_neg hc2]
      simp only [List.map_map]
      rw [hmap]
      rfl
    rw [vdo_mkData (singleVarObs dts vals) ["air_temp"] rfl, hbuild]
    rfl
  · intro j hj hbad
    have hraise := toDatetimeRaise_eq_none hj hbad
    simp only [weather_plot, parsed_data_mkData, hdt, hraise]

/-- Witness for `c3_amended` on a two-entry `date_time` whose first entry
is invalid: the table grid carries `none` for that row's time and the plot
raises. -/
theorem c3_amended_witness :
    ([(7 : Int), 8].length = [Json.str "bad", Json.num 3].length)
    ∧ [Json.str "bad", Json.num 3] ≠ []
    ∧ variable_data_output
        (mkData (singleVarObs [.str "bad", .num 3] [7, 8])) ["air_temp"]
      = .grid ⟨["air_temp"],
          (toDatetimeCoerce [.str "bad", .num 3]).zip
            ([(7 : Int), 8].map (fun z => [some z]))⟩
    ∧ weather_plot (mkData (singleVarObs [.str "bad", .num 3] [7, 8])) ["air_temp"]
      = .raised :=
  ⟨rfl, List.cons_ne_nil _ _,
    (c3_amended [.str "bad", .num 3] [7, 8] rfl (List.cons_ne_nil _ _)).1,
    (c3_amended [.str "bad", .num 3] [7, 8] rfl (List.cons_ne_nil _ _)).2
      (.str "bad") (List.mem_cons_self _ _) rfl⟩
